import Mathlib

/-!
Shallow embedding of the MicroVM monitor (`microsandbox-core/lib/runtime/monitor.rs`)
and of the SDK sandbox base (`sdk/rust/src/base.rs`).

External collaborators (the sqlite store, the rotating log, the termios syscalls,
the network) are modelled as explicit state / oracles; the monitor's own control
flow is translated line by line from the source.
-/

/-- Modelled from the spec: the local terminal discipline (termios) captured and
restored by the Terminal Mode Guard; the `nix::sys::termios::Termios` type is not
part of the sources. Raw mode disables line buffering, echo and signal keys. -/
structure Termios where
  canonical : Bool
  echo : Bool
  signals : Bool
  deriving DecidableEq, Repr

/-- Modelled from the spec: `cfmakeraw` yields a discipline with buffering, echo
and signal generation disabled. -/
def cfmakeraw (_t : Termios) : Termios :=
  { canonical := false, echo := false, signals := false }

/-- `Rootfs` variant from `vm`: a native path or ordered overlayfs layers
(paths modelled as strings, as produced by `to_string_lossy`). -/
inductive Rootfs where
  | native : String → Rootfs
  | overlayfs : List String → Rootfs
  deriving DecidableEq, Repr

/-- The rootfs descriptor string computed in `MicroVmMonitor::start`
(monitor.rs lines 139-149): `format!("native:{}", path)` and
`format!("overlayfs:{}", paths.join(":"))`. -/
def serializeRootfs : Rootfs → String
  | .native p => "native:" ++ p
  | .overlayfs ps => "overlayfs:" ++ String.intercalate ":" ps

/-- A sandbox record as upserted into the store. Modelled from the spec:
the store itself (`management::db`) is an external collaborator; a record holds
identity, status, both pids and the rootfs descriptor string. -/
structure SandboxRecord where
  name : String
  config_file : String
  status : String
  supervisor_pid : Nat
  microvm_pid : Nat
  rootfs_paths : String
  deriving DecidableEq, Repr

/-- Modelled from the spec: the persistent store holds sandbox records keyed by
(name, config file). -/
abbrev Store : Type := List SandboxRecord

/-- Modelled from the spec: `db::save_or_update_sandbox` upserts the record for
(name, config file): an existing record is overwritten, otherwise a new one is
appended. -/
def save_or_update_sandbox (s : Store) (name config_file status : String)
    (supervisor_pid microvm_pid : Nat) (rootfs_paths : String) : Store :=
  let rec' : SandboxRecord :=
    ⟨name, config_file, status, supervisor_pid, microvm_pid, rootfs_paths⟩
  if s.any (fun r => r.name == name && r.config_file == config_file) then
    s.map (fun r =>
      if r.name == name && r.config_file == config_file then rec' else r)
  else
    s ++ [rec']

/-- Modelled from the spec: `db::update_sandbox_status` updates the status of the
record keyed by (name, config file), creating nothing. -/
def update_sandbox_status (s : Store) (name config_file status : String) : Store :=
  s.map (fun r =>
    if r.name == name && r.config_file == config_file then
      { r with status := status }
    else r)

/-- `SANDBOX_STATUS_RUNNING` (monitor.rs line 23). -/
def SANDBOX_STATUS_RUNNING : String := "RUNNING"

/-- `SANDBOX_STATUS_STOPPED` (monitor.rs line 26). -/
def SANDBOX_STATUS_STOPPED : String := "STOPPED"

/-- Modelled from the spec: the log file suffix constant `LOG_SUFFIX` lives in
`microsandbox_utils`, outside the sources; the spec only fixes the shape
`<sandbox_name>.<suffix>`. -/
def LOG_SUFFIX : String := "log"

/-- A path component is absolute when it starts with the separator
(unix `Path::is_absolute`). -/
def pathIsAbsolute (p : String) : Bool := p.data.head? = some '/'

/-- Whether a path already ends with the separator. -/
def pathEndsWithSep (p : String) : Bool := p.data.getLast? = some '/'

/-- Unix `PathBuf::push` / `Path::join`: an absolute argument replaces the whole
path; otherwise a separator is inserted unless the base is empty or already ends
with one. -/
def pathJoin (base p : String) : String :=
  if pathIsAbsolute p then p
  else if base.data = [] then p
  else if pathEndsWithSep base then base ++ p
  else base ++ "/" ++ p

/-- The `MicroVmMonitor` state (monitor.rs lines 33-63). The sqlite pool handle
is replaced by threading the `Store` explicitly; `config_last_modified` is kept
as an abstract timestamp. -/
structure MicroVmMonitor where
  sandbox_name : String
  config_file : String
  config_last_modified : Nat
  supervisor_pid : Nat
  log_path : Option String
  log_dir : String
  rootfs : Rootfs
  original_term : Option Termios
  forward_output : Bool
  deriving DecidableEq, Repr

/-- `MicroVmMonitor::generate_log_path` (monitor.rs lines 109-114):
`log_dir.join(config_file).join(format!("{}.{}", sandbox_name, LOG_SUFFIX))`. -/
def generate_log_path (m : MicroVmMonitor) : String :=
  let config_dir := pathJoin m.log_dir m.config_file
  pathJoin config_dir (m.sandbox_name ++ "." ++ LOG_SUFFIX)

/-- Outcome of one run of `restore_terminal_settings`: the updated monitor, the
resulting terminal discipline, and the snapshot `tcsetattr` was attempted with
(if any). -/
structure RestoreResult where
  monitor : MicroVmMonitor
  term : Termios
  attempted : Option Termios
  deriving DecidableEq, Repr

/-- `MicroVmMonitor::restore_terminal_settings` (monitor.rs lines 95-105):
`original_term.take()` clears the snapshot unconditionally; when one was present
`tcsetattr` is attempted with it, and a failure is only logged. `tcsetattrOk`
injects the syscall outcome; `term` is the current terminal discipline. -/
def restore_terminal_settings (m : MicroVmMonitor) (tcsetattrOk : Bool)
    (term : Termios) : RestoreResult :=
  match m.original_term with
  | none => ⟨m, term, none⟩
  | some t =>
      ⟨{ m with original_term := none }, if tcsetattrOk then t else term, some t⟩

/-- `impl Drop for MicroVmMonitor` (monitor.rs lines 337-341): destruction runs
exactly `restore_terminal_settings`. -/
def dropMonitor (m : MicroVmMonitor) (tcsetattrOk : Bool) (term : Termios) :
    RestoreResult :=
  restore_terminal_settings m tcsetattrOk term

deriving instance DecidableEq for Except

/-- The shape of the `ChildIo` handles passed to `start`: piped mode records
which of the three optional handles are present; TTY mode carries one master
read half and one write half. -/
inductive ChildIo where
  | piped (stdin stdout stderr : Bool)
  | tty
  deriving DecidableEq, Repr

/-- The relay tasks `start` can spawn (monitor.rs lines 175, 206, 235, 264, 304). -/
inductive RelayTask where
  | pipedStdout
  | pipedStderr
  | pipedStdin
  | ttyRead
  | ttyWrite
  deriving DecidableEq, Repr

/-- Error exits of `MicroVmMonitor::start`, one per `?` site. -/
inductive StartErr where
  | dirCreate
  | logOpen
  | store
  | termQuery
  | termSet
  deriving DecidableEq, Repr

/-- Oracle for the fallible external calls made by `start`, in source order:
`create_dir_all`, `RotatingLog::new`, `db::save_or_update_sandbox`,
`tcgetattr`, `tcsetattr`. -/
structure StartEnv where
  createDirOk : Bool
  logOpenOk : Bool
  dbOk : Bool
  tcgetattrOk : Bool
  tcsetattrOk : Bool
  deriving DecidableEq, Repr

/-- Result of one call to `start`: monitor and store states, the terminal
discipline, and the relay tasks spawned by this call. -/
structure StartResult where
  monitor : MicroVmMonitor
  store : Store
  term : Termios
  tasks : List RelayTask
  result : Except StartErr Unit
  deriving DecidableEq, Repr

/-- `MicroVmMonitor::start` (monitor.rs lines 123-314), with each external call
replaced by its oracle outcome. Source order: compute the log path; create its
parent directory; open the rotating log; set `self.log_path`; serialize the
rootfs; upsert the RUNNING record; then dispatch on `child_io` — piped mode
spawns one task per present handle, TTY mode first queries (`tcgetattr`) and
sets (`tcsetattr` to `cfmakeraw`) the terminal, storing the snapshot in
`original_term` between the two, before spawning its two tasks. -/
def start (m : MicroVmMonitor) (store : Store) (term : Termios) (env : StartEnv)
    (pid : Nat) (child_io : ChildIo) : StartResult :=
  let log_path := generate_log_path m
  if !env.createDirOk then ⟨m, store, term, [], .error .dirCreate⟩
  else if !env.logOpenOk then ⟨m, store, term, [], .error .logOpen⟩
  else
    let m := { m with log_path := some log_path }
    let rootfs_paths := serializeRootfs m.rootfs
    if !env.dbOk then ⟨m, store, term, [], .error .store⟩
    else
      let store := save_or_update_sandbox store m.sandbox_name m.config_file
        SANDBOX_STATUS_RUNNING m.supervisor_pid pid rootfs_paths
      match child_io with
      | .piped stdin stdout stderr =>
          let tasks :=
            (if stdout then [RelayTask.pipedStdout] else []) ++
            (if stderr then [RelayTask.pipedStderr] else []) ++
            (if stdin then [RelayTask.pipedStdin] else [])
          ⟨m, store, term, tasks, .ok ()⟩
      | .tty =>
          if !env.tcgetattrOk then ⟨m, store, term, [], .error .termQuery⟩
          else
            let m := { m with original_term := some term }
            if !env.tcsetattrOk then ⟨m, store, term, [], .error .termSet⟩
            else
              ⟨m, store, cfmakeraw term, [RelayTask.ttyRead, RelayTask.ttyWrite],
                .ok ()⟩

/-- Error exit of `MicroVmMonitor::stop`. -/
inductive StopErr where
  | store
  deriving DecidableEq, Repr

/-- Result of one call to `stop`. -/
structure StopResult where
  monitor : MicroVmMonitor
  store : Store
  term : Termios
  result : Except StopErr Unit
  deriving DecidableEq, Repr

/-- `MicroVmMonitor::stop` (monitor.rs lines 316-334): restore the terminal
settings first (failure only logged); then `db::update_sandbox_status` to
STOPPED — a store failure returns early, before `self.log_path = None`. -/
def stop (m : MicroVmMonitor) (store : Store) (tcsetattrOk dbOk : Bool)
    (term : Termios) : StopResult :=
  let r := restore_terminal_settings m tcsetattrOk term
  if !dbOk then ⟨r.monitor, store, r.term, .error .store⟩
  else
    let store := update_sandbox_status store m.sandbox_name m.config_file
      SANDBOX_STATUS_STOPPED
    ⟨{ r.monitor with log_path := none }, store, r.term, .ok ()⟩

/-- The UTF-8 encoding of U+FFFD, emitted by `String::from_utf8_lossy` for each
maximal invalid subpart. -/
def replacementBytes : List Nat := [0xEF, 0xBF, 0xBD]

/-- A UTF-8 continuation byte. -/
def isUtf8Cont (b : Nat) : Bool := 0x80 ≤ b && b ≤ 0xBF

/-- Admissible first continuation byte after `lead`, with the restricted ranges
for E0/ED/F0/F4 that rule out overlong and surrogate encodings. -/
def utf8Cont1Ok (lead c : Nat) : Bool :=
  if lead = 0xE0 then 0xA0 ≤ c && c ≤ 0xBF
  else if lead = 0xED then 0x80 ≤ c && c ≤ 0x9F
  else if lead = 0xF0 then 0x90 ≤ c && c ≤ 0xBF
  else if lead = 0xF4 then 0x80 ≤ c && c ≤ 0x8F
  else isUtf8Cont c

/-- The bytes produced by `print!("{}", String::from_utf8_lossy(bytes))`: valid
UTF-8 sequences pass through unchanged; each maximal invalid subpart is replaced
by the replacement character, resuming at the first non-matching byte. -/
def utf8Lossy : List Nat → List Nat
  | [] => []
  | b :: rest =>
    if b ≤ 0x7F then b :: utf8Lossy rest
    else if 0xC2 ≤ b && b ≤ 0xDF then
      match rest with
      | [] => replacementBytes
      | c :: r2 =>
        if isUtf8Cont c then b :: c :: utf8Lossy r2
        else replacementBytes ++ utf8Lossy (c :: r2)
    else if 0xE0 ≤ b && b ≤ 0xEF then
      match rest with
      | [] => replacementBytes
      | c :: r2 =>
        if utf8Cont1Ok b c then
          match r2 with
          | [] => replacementBytes
          | d :: r3 =>
            if isUtf8Cont d then b :: c :: d :: utf8Lossy r3
            else replacementBytes ++ utf8Lossy (d :: r3)
        else replacementBytes ++ utf8Lossy (c :: r2)
    else if 0xF0 ≤ b && b ≤ 0xF4 then
      match rest with
      | [] => replacementBytes
      | c :: r2 =>
        if utf8Cont1Ok b c then
          match r2 with
          | [] => replacementBytes
          | d :: r3 =>
            if isUtf8Cont d then
              match r3 with
              | [] => replacementBytes
              | e :: r4 =>
                if isUtf8Cont e then b :: c :: d :: e :: utf8Lossy r4
                else replacementBytes ++ utf8Lossy (e :: r4)
            else replacementBytes ++ utf8Lossy (d :: r3)
        else replacementBytes ++ utf8Lossy (c :: r2)
    else replacementBytes ++ utf8Lossy rest

/-- One result of `read(&mut buf)` in the piped loops: `none` models `Err(_)`,
`some []` models `Ok(0)` (end of stream), `some bytes` a successful chunk. -/
abbrev ReadResult := Option (List Nat)

/-- Observable behaviour of one relay task: the chunks appended to the rotating
log (in read order), the byte sequences written to the parent stream (in read
order), and whether a read failure was logged as a warning. -/
structure RelayOut where
  logged : List (List Nat)
  forwarded : List (List Nat)
  readErrWarned : Bool
  deriving DecidableEq, Repr

/-- The piped stdout/stderr relay loop (monitor.rs lines 175-199 resp. 206-230):
`while let Ok(n) = read(..)` — an `Err` ends the loop with no logging; `Ok(0)`
breaks; otherwise the chunk is written to the log and flushed, then, when
`forward_output` holds, the lossy transcoding is printed to the parent stream. -/
def relayPiped (forward_output : Bool) : List ReadResult → RelayOut
  | [] => ⟨[], [], false⟩
  | none :: _ => ⟨[], [], false⟩
  | some [] :: _ => ⟨[], [], false⟩
  | some c :: rest =>
      let r := relayPiped forward_output rest
      ⟨c :: r.logged,
       (if forward_output then [utf8Lossy c] else []) ++ r.forwarded,
       r.readErrWarned⟩

/-- One iteration's outcome in the TTY master read loop: `readable()` failing,
`try_io` returning would-block, the inner `read` failing, or bytes read
(`[]` being EOF). -/
inductive TtyEvent where
  | waitErr
  | wouldBlock
  | readErr
  | bytes : List Nat → TtyEvent
  deriving DecidableEq, Repr

/-- The TTY master relay loop (monitor.rs lines 264-301): a `readable()` error
or a read error warns and breaks; would-block (`Err(_)` from `try_io`)
continues; `Ok(Ok(0))` breaks silently; a chunk is logged, flushed and, when
`forward_output` holds, its lossy transcoding printed to the parent stdout. -/
def relayTty (forward_output : Bool) : List TtyEvent → RelayOut
  | [] => ⟨[], [], false⟩
  | .waitErr :: _ => ⟨[], [], true⟩
  | .wouldBlock :: rest => relayTty forward_output rest
  | .readErr :: _ => ⟨[], [], true⟩
  | .bytes [] :: _ => ⟨[], [], false⟩
  | .bytes c :: rest =>
      let r := relayTty forward_output rest
      ⟨c :: r.logged,
       (if forward_output then [utf8Lossy c] else []) ++ r.forwarded,
       r.readErrWarned⟩

/-- The chunks a piped relay loop consumes before stopping: everything up to the
first read error or zero-length read. -/
def consumedChunks : List ReadResult → List (List Nat)
  | some [] :: _ => []
  | some c :: rest => c :: consumedChunks rest
  | _ => []

/-- The two independent piped relay tasks of one sandbox session, each a
function of its own stream only (monitor.rs lines 172-231). -/
def runPipedRelays (forward_output : Bool)
    (stdoutReads stderrReads : List ReadResult) : RelayOut × RelayOut :=
  (relayPiped forward_output stdoutReads, relayPiped forward_output stderrReads)

/-- The `SandboxError` variants raised by `base.rs`. -/
inductive SdkError where
  | notStarted
  | requestFailed (msg : String)
  | serverError (msg : String)
  | httpError (msg : String)
  | timeout (msg : String)
  deriving DecidableEq, Repr

/-- A JSON-RPC request issued to the server: its method, the sandbox identity
from `params`, and any further string parameters. -/
structure RpcCall where
  method : String
  nspace : String
  sandbox : String
  extra : List (String × String)
  deriving DecidableEq, Repr

/-- `SandboxBase` (base.rs lines 15-33); the `reqwest::Client` handle carries no
observable state and is dropped. -/
structure SandboxBase where
  server_url : String
  nspace : String
  name : String
  api_key : Option String
  is_started : Bool
  deriving DecidableEq, Repr

/-- `Execution::new(result)` over the decoded response map. -/
structure Execution where
  data : List (String × String)
  deriving DecidableEq, Repr

/-- Result of `SandboxBase::run_code`: the (unchanged — `&self`) base, the
requests issued, and the outcome. -/
structure RunCodeResult where
  base : SandboxBase
  requests : List RpcCall
  result : Except SdkError Execution
  deriving DecidableEq, Repr

/-- `SandboxBase::run_code` (base.rs lines 248-266): a sandbox that is not
started yields `SandboxError::NotStarted` before any request; otherwise one
`sandbox.repl.run` request is issued and its decoded response wrapped in an
`Execution`. The network outcome is the `resp` oracle. -/
def run_code (s : SandboxBase) (language code : String)
    (resp : Except SdkError (List (String × String))) : RunCodeResult :=
  if !s.is_started then ⟨s, [], .error .notStarted⟩
  else
    let req : RpcCall :=
      ⟨"sandbox.repl.run", s.nspace, s.name, [("language", language), ("code", code)]⟩
    match resp with
    | .error e => ⟨s, [req], .error e⟩
    | .ok m => ⟨s, [req], .ok ⟨m⟩⟩

/-- Result of `SandboxBase::start_sandbox`: the new base, the requests issued,
whether the "timed out waiting" warning was printed, and the outcome. -/
structure StartSandboxResult where
  base : SandboxBase
  requests : List RpcCall
  warnedTimeout : Bool
  result : Except SdkError Unit
  deriving DecidableEq, Repr

/-- `SandboxBase::start_sandbox` (base.rs lines 137-228): an already-started
sandbox returns `Ok` at once with no request; otherwise one `sandbox.start`
request is issued (its config payload and the f32 cpu rounding are not
modelled), a failed or error response is surfaced with `is_started` untouched,
and a success sets `is_started` after warning when the result string contains
"timed out waiting". -/
def start_sandbox (s : SandboxBase) (resp : Except SdkError String) :
    StartSandboxResult :=
  if s.is_started then ⟨s, [], false, .ok ()⟩
  else
    let req : RpcCall := ⟨"sandbox.start", s.nspace, s.name, []⟩
    match resp with
    | .error e => ⟨s, [req], false, .error e⟩
    | .ok result_str =>
        ⟨{ s with is_started := true }, [req],
         decide (1 < (result_str.splitOn "timed out waiting").length), .ok ()⟩

/-- Result of `SandboxBase::stop_sandbox`. -/
structure StopSandboxResult where
  base : SandboxBase
  requests : List RpcCall
  result : Except SdkError Unit
  deriving DecidableEq, Repr

/-- `SandboxBase::stop_sandbox` (base.rs lines 231-245): a sandbox that is not
started returns `Ok` at once with no request; otherwise one `sandbox.stop`
request is issued and, on success, `is_started` is cleared. -/
def stop_sandbox (s : SandboxBase) (resp : Except SdkError Unit) :
    StopSandboxResult :=
  if !s.is_started then ⟨s, [], .ok ()⟩
  else
    let req : RpcCall := ⟨"sandbox.stop", s.nspace, s.name, []⟩
    match resp with
    | .error e => ⟨s, [req], .error e⟩
    | .ok _ => ⟨{ s with is_started := false }, [req], .ok ()⟩

/-- Sample terminal discipline used by concrete witnesses. -/
def sampleTerm : Termios := ⟨true, true, true⟩

/-- Sample monitor used by concrete witnesses. -/
def sampleMonitor : MicroVmMonitor :=
  { sandbox_name := "sb"
    config_file := "msb.yaml"
    config_last_modified := 0
    supervisor_pid := 7
    log_path := none
    log_dir := "/logs"
    rootfs := .native "/rootfs"
    original_term := none
    forward_output := true }

/-- Sample SDK base used by concrete witnesses. -/
def sampleBase : SandboxBase :=
  { server_url := "http://127.0.0.1:5555"
    nspace := "default"
    name := "sandbox-1"
    api_key := none
    is_started := false }

/-- C1: after a TTY-mode `start` the terminal snapshot is captured in
`original_term`; destroying the monitor without calling `stop` still attempts
`tcsetattr` with that snapshot (restoring it when the call succeeds) and leaves
`original_term` cleared. -/
theorem c1_drop_restores_after_tty_start (m : MicroVmMonitor) (store : Store)
    (term : Termios) (pid : Nat) (setOk : Bool) :
    (start m store term ⟨true, true, true, true, true⟩ pid .tty).monitor.original_term
        = some term ∧
    (dropMonitor (start m store term ⟨true, true, true, true, true⟩ pid .tty).monitor
        setOk (start m store term ⟨true, true, true, true, true⟩ pid .tty).term).attempted
        = some term ∧
    (dropMonitor (start m store term ⟨true, true, true, true, true⟩ pid .tty).monitor
        setOk (start m store term ⟨true, true, true, true, true⟩ pid .tty).term).monitor.original_term
        = none ∧
    (setOk = true →
      (dropMonitor (start m store term ⟨true, true, true, true, true⟩ pid .tty).monitor
          setOk (start m store term ⟨true, true, true, true, true⟩ pid .tty).term).term
        = term) := by
  cases setOk <;> simp [start, dropMonitor, restore_terminal_settings]

/-- C1 witness: at a concrete monitor, the drop after a TTY start attempts the
restore with the pre-start snapshot and clears the field. -/
theorem c1_drop_restores_after_tty_start_witness :
    (start sampleMonitor [] sampleTerm ⟨true, true, true, true, true⟩ 9 .tty).monitor.original_term
        = some sampleTerm ∧
    (dropMonitor (start sampleMonitor [] sampleTerm ⟨true, true, true, true, true⟩ 9 .tty).monitor
        true (start sampleMonitor [] sampleTerm ⟨true, true, true, true, true⟩ 9 .tty).term).attempted
        = some sampleTerm ∧
    (dropMonitor (start sampleMonitor [] sampleTerm ⟨true, true, true, true, true⟩ 9 .tty).monitor
        true (start sampleMonitor [] sampleTerm ⟨true, true, true, true, true⟩ 9 .tty).term).term
        = sampleTerm :=
  ⟨(c1_drop_restores_after_tty_start sampleMonitor [] sampleTerm 9 true).1,
   (c1_drop_restores_after_tty_start sampleMonitor [] sampleTerm 9 true).2.1,
   (c1_drop_restores_after_tty_start sampleMonitor [] sampleTerm 9 true).2.2.2 rfl⟩

/-- C5: `stop` always runs the terminal restore first (restoring the snapshot
when one was captured and `tcsetattr` succeeds, a no-op otherwise) and always
consumes the snapshot; on store success the record is updated to STOPPED, the
log path is cleared and `Ok` returned; a store failure is returned to the
caller; a `tcsetattr` failure never changes which result `stop` returns. -/
theorem c5_stop_effects (m : MicroVmMonitor) (store : Store) (setOk dbOk : Bool)
    (term : Termios) :
    (stop m store setOk dbOk term).monitor.original_term = none ∧
    (∀ t, m.original_term = some t → setOk = true →
      (stop m store setOk dbOk term).term = t) ∧
    (m.original_term = none → (stop m store setOk dbOk term).term = term) ∧
    (dbOk = true →
      (stop m store setOk dbOk term).store =
        update_sandbox_status store m.sandbox_name m.config_file
          SANDBOX_STATUS_STOPPED ∧
      (stop m store setOk dbOk term).monitor.log_path = none ∧
      (stop m store setOk dbOk term).result = .ok ()) ∧
    (dbOk = false → (stop m store setOk dbOk term).result = .error .store) ∧
    (stop m store setOk dbOk term).result = (stop m store true dbOk term).result := by
  cases hm : m.original_term <;> cases setOk <;> cases dbOk <;>
    simp [stop, restore_terminal_settings, hm]

/-- C5 witness: a concrete stop with a captured snapshot and a healthy store
restores the snapshot, marks the record STOPPED and clears the log path. -/
theorem c5_stop_effects_witness :
    ({ sampleMonitor with original_term := some sampleTerm } :
        MicroVmMonitor).original_term = some sampleTerm ∧
    (stop { sampleMonitor with original_term := some sampleTerm }
        [⟨"sb", "msb.yaml", "RUNNING", 7, 9, "native:/rootfs"⟩] true true
        (cfmakeraw sampleTerm)).term = sampleTerm ∧
    (stop { sampleMonitor with original_term := some sampleTerm }
        [⟨"sb", "msb.yaml", "RUNNING", 7, 9, "native:/rootfs"⟩] true true
        (cfmakeraw sampleTerm)).store =
      update_sandbox_status [⟨"sb", "msb.yaml", "RUNNING", 7, 9, "native:/rootfs"⟩]
        "sb" "msb.yaml" SANDBOX_STATUS_STOPPED :=
  ⟨rfl,
   (c5_stop_effects { sampleMonitor with original_term := some sampleTerm }
      [⟨"sb", "msb.yaml", "RUNNING", 7, 9, "native:/rootfs"⟩] true true
      (cfmakeraw sampleTerm)).2.1 sampleTerm rfl rfl,
   ((c5_stop_effects { sampleMonitor with original_term := some sampleTerm }
      [⟨"sb", "msb.yaml", "RUNNING", 7, 9, "native:/rootfs"⟩] true true
      (cfmakeraw sampleTerm)).2.2.2.1 rfl).1⟩

/-- C9: terminal restoration is idempotent — once a restore (run directly, via
`dropMonitor`, or inside `stop`) has consumed the snapshot, any further restore,
drop or stop leaves both the terminal discipline and `original_term` unchanged. -/
theorem c9_restore_idempotent (m : MicroVmMonitor) (store : Store)
    (setOk dbOk setOk' dbOk' : Bool) (term : Termios) :
    (restore_terminal_settings (dropMonitor m setOk term).monitor setOk'
        (dropMonitor m setOk term).term
      = ⟨(dropMonitor m setOk term).monitor, (dropMonitor m setOk term).term, none⟩) ∧
    (stop m store setOk dbOk term).monitor.original_term = none ∧
    (stop (stop m store setOk dbOk term).monitor (stop m store setOk dbOk term).store
        setOk' dbOk' (stop m store setOk dbOk term).term).term
      = (stop m store setOk dbOk term).term ∧
    (stop (stop m store setOk dbOk term).monitor (stop m store setOk dbOk term).store
        setOk' dbOk' (stop m store setOk dbOk term).term).monitor.original_term
      = none ∧
    dropMonitor (stop m store setOk dbOk term).monitor setOk'
        (stop m store setOk dbOk term).term
      = ⟨(stop m store setOk dbOk term).monitor, (stop m store setOk dbOk term).term,
         none⟩ := by
  cases hm : m.original_term <;> cases setOk <;> cases dbOk <;> cases setOk' <;>
    cases dbOk' <;>
    simp [stop, dropMonitor, restore_terminal_settings, hm]

/-- C7: the rootfs descriptor serialization computed in `start` maps
`Native(path)` to `"native:" ++ path` and `Overlayfs(paths)` to
`"overlayfs:" ++ paths joined by ":"` in order; in particular
`Native("/a") = "native:/a"` and `Overlayfs(["/a","/b"]) = "overlayfs:/a:/b"`,
and a successful `start` stores exactly this string in the sandbox record. -/
theorem c7_rootfs_serialization :
    (∀ p, serializeRootfs (.native p) = "native:" ++ p) ∧
    (∀ ps, serializeRootfs (.overlayfs ps)
        = "overlayfs:" ++ String.intercalate ":" ps) ∧
    serializeRootfs (.native "/a") = "native:/a" ∧
    serializeRootfs (.overlayfs ["/a", "/b"]) = "overlayfs:/a:/b" ∧
    (∀ m term pid stdin stdout stderr,
      (start m [] term ⟨true, true, true, true, true⟩ pid
          (.piped stdin stdout stderr)).store =
        [⟨m.sandbox_name, m.config_file, SANDBOX_STATUS_RUNNING,
          m.supervisor_pid, pid, serializeRootfs m.rootfs⟩]) := by
  refine ⟨fun p => rfl, fun ps => rfl, by decide, by decide, ?_⟩
  intro m term pid stdin stdout stderr
  simp [start, save_or_update_sandbox]

/-- C2 counterexample: with directory creation, log open and the store write all
succeeding, a TTY `start` whose `tcgetattr` fails returns an error even though
the RUNNING record has already been written to the store (and no relay task was
spawned) — refuting the claim that a failed `start` never leaves a RUNNING
record. -/
theorem c2_counterexample :
    (start sampleMonitor [] sampleTerm ⟨true, true, true, false, true⟩ 42 .tty).result
        = .error .termQuery ∧
    ((start sampleMonitor [] sampleTerm ⟨true, true, true, false, true⟩ 42 .tty).store.any
        (fun r => r.status == SANDBOX_STATUS_RUNNING)) = true ∧
    (start sampleMonitor [] sampleTerm ⟨true, true, true, false, true⟩ 42 .tty).tasks
        = [] := by
  decide

/-- C2 (amended): every erroring `start` spawns no relay tasks; a
directory-creation, log-open or store-write failure additionally leaves the
store untouched (hence no RUNNING record written by that call), whereas a TTY
terminal query/set failure occurs after the RUNNING record has already been
upserted. -/
theorem c2_start_error_effects (m : MicroVmMonitor) (store : Store)
    (term : Termios) (env : StartEnv) (pid : Nat) (child_io : ChildIo)
    (err : StartErr)
    (h : (start m store term env pid child_io).result = .error err) :
    (start m store term env pid child_io).tasks = [] ∧
    ((err = .dirCreate ∨ err = .logOpen ∨ err = .store) →
      (start m store term env pid child_io).store = store) ∧
    ((err = .termQuery ∨ err = .termSet) →
      (start m store term env pid child_io).store =
        save_or_update_sandbox store m.sandbox_name m.config_file
          SANDBOX_STATUS_RUNNING m.supervisor_pid pid
          (serializeRootfs m.rootfs)) := by
  obtain ⟨cd, lo, db, tg, ts⟩ := env
  cases child_io <;> cases cd <;> cases lo <;> cases db <;> cases tg <;>
    cases ts <;> simp_all [start] <;> subst h <;> simp

/-- C2 witness: a concrete store-write failure errors out of `start` with no
tasks spawned and the store unchanged. -/
theorem c2_start_error_effects_witness :
    (start sampleMonitor [] sampleTerm ⟨true, true, false, true, true⟩ 42
        (.piped true true true)).result = .error .store ∧
    ((start sampleMonitor [] sampleTerm ⟨true, true, false, true, true⟩ 42
        (.piped true true true)).tasks = [] ∧
     (start sampleMonitor [] sampleTerm ⟨true, true, false, true, true⟩ 42
        (.piped true true true)).store = []) :=
  ⟨rfl,
   (c2_start_error_effects sampleMonitor [] sampleTerm ⟨true, true, false, true, true⟩
      42 (.piped true true true) .store rfl).1,
   (c2_start_error_effects sampleMonitor [] sampleTerm ⟨true, true, false, true, true⟩
      42 (.piped true true true) .store rfl).2.1 (by decide)⟩

/-- ASCII bytes pass through the lossy transcoding unchanged. -/
theorem utf8Lossy_ascii (l : List Nat) (h : ∀ b ∈ l, b ≤ 0x7F) :
    utf8Lossy l = l := by
  induction l with
  | nil => simp [utf8Lossy]
  | cons b rest ih =>
      have hb : b ≤ 0x7F := h b (by simp)
      rw [utf8Lossy.eq_def]
      simp [hb, ih fun x hx => h x (List.mem_cons_of_mem b hx)]

/-- C3 counterexample: in piped mode with forwarding enabled, a child chunk
consisting of the single byte 0xFF is logged verbatim but the parent stream
receives the replacement character EF BF BD instead of that byte — refuting the
claim that the forwarded bytes always equal the bytes read. -/
theorem c3_counterexample :
    (relayPiped true [some [0xFF], some []]).logged = [[0xFF]] ∧
    (relayPiped true [some [0xFF], some []]).forwarded = [[0xEF, 0xBF, 0xBD]] ∧
    (relayPiped true [some [0xFF], some []]).forwarded ≠ [[0xFF]] := by
  decide

/-- C3 (amended): in piped mode with forwarding enabled, every chunk read is
appended verbatim to the log, and the bytes written to the parent stream are the
UTF-8-lossy transcoding of the chunk — which equals the chunk itself whenever
its bytes are ASCII (in particular a child writing "hello" then closing yields
exactly "hello" on the parent's stdout). -/
theorem c3_forwarded_is_lossy (reads : List ReadResult) :
    (relayPiped true reads).logged = consumedChunks reads ∧
    (relayPiped true reads).forwarded = (consumedChunks reads).map utf8Lossy ∧
    ((∀ c ∈ consumedChunks reads, ∀ b ∈ c, b ≤ 0x7F) →
      (relayPiped true reads).forwarded = consumedChunks reads) := by
  have main : (relayPiped true reads).logged = consumedChunks reads ∧
      (relayPiped true reads).forwarded = (consumedChunks reads).map utf8Lossy := by
    induction reads with
    | nil => simp [relayPiped, consumedChunks]
    | cons e rest ih =>
        cases e with
        | none => simp [relayPiped, consumedChunks]
        | some c =>
            cases c with
            | nil => simp [relayPiped, consumedChunks]
            | cons b bs => simp [relayPiped, consumedChunks, ih.1, ih.2]
  refine ⟨main.1, main.2, fun hascii => ?_⟩
  rw [main.2]
  calc (consumedChunks reads).map utf8Lossy
      = (consumedChunks reads).map id := by
        exact List.map_congr_left fun c hc => utf8Lossy_ascii c (hascii c hc)
    _ = consumedChunks reads := List.map_id _

/-- C3 witness: the chunk "hello" (bytes 104 101 108 108 111) followed by
end-of-stream is forwarded exactly as read. -/
theorem c3_forwarded_is_lossy_witness :
    (∀ c ∈ consumedChunks [some [104, 101, 108, 108, 111], some []],
      ∀ b ∈ c, b ≤ 0x7F) ∧
    (relayPiped true [some [104, 101, 108, 108, 111], some []]).forwarded
      = consumedChunks [some [104, 101, 108, 108, 111], some []] :=
  ⟨by decide,
   (c3_forwarded_is_lossy [some [104, 101, 108, 108, 111], some []]).2.2 (by decide)⟩

/-- C6 counterexample: a read error in a piped relay loop ends the loop
*silently* — the `while let Ok(n)` exit emits no warning — refuting the claim
that every relay read error is logged. -/
theorem c6_counterexample :
    ¬ ((relayPiped true [none]).readErrWarned = true) := by
  decide

/-- C6 (amended): a read error ends only the task that saw it: the piped loops
stop at the error, process nothing that follows, and warn nothing, while the
TTY loop warns and stops; a TTY would-block result merely loops back to waiting
and is never treated as an error; and a sibling relay's output is a function of
its own stream only. -/
theorem c6_read_error_containment (f : Bool) (rest : List ReadResult)
    (trest : List TtyEvent) (e1 e1' e2 : List ReadResult) :
    relayPiped f (none :: rest) = ⟨[], [], false⟩ ∧
    relayTty f (.readErr :: trest) = ⟨[], [], true⟩ ∧
    relayTty f (.waitErr :: trest) = ⟨[], [], true⟩ ∧
    relayTty f (.wouldBlock :: trest) = relayTty f trest ∧
    (runPipedRelays f e1 e2).2 = (runPipedRelays f e1' e2).2 := by
  exact ⟨rfl, rfl, rfl, rfl, rfl⟩

/-- C8: with `forward_output = false` no relay task — piped stdout, piped
stderr or the TTY read loop — ever writes a byte to the parent's stdout or
stderr, whatever the child produces. -/
theorem c8_no_forwarding_when_disabled :
    (∀ reads : List ReadResult, (relayPiped false reads).forwarded = []) ∧
    (∀ events : List TtyEvent, (relayTty false events).forwarded = []) := by
  constructor
  · intro reads
    induction reads with
    | nil => simp [relayPiped]
    | cons e rest ih =>
        cases e with
        | none => simp [relayPiped]
        | some c => cases c with
          | nil => simp [relayPiped]
          | cons b bs => simp [relayPiped, ih]
  · intro events
    induction events with
    | nil => simp [relayTty]
    | cons e rest ih =>
        cases e with
        | waitErr => simp [relayTty]
        | wouldBlock => simpa [relayTty] using ih
        | readErr => simp [relayTty]
        | bytes c => cases c with
          | nil => simp [relayTty]
          | cons b bs => simp [relayTty, ih]

/-- C10: `run_code` on a sandbox that is not started returns `NotStarted`
without issuing a request and with the base unchanged; `start_sandbox` on an
already-started sandbox and `stop_sandbox` on a not-started sandbox both return
`Ok` immediately, issuing no request and changing nothing. -/
theorem c10_lifecycle_guards (s : SandboxBase) (language code : String)
    (respRun : Except SdkError (List (String × String)))
    (respStart : Except SdkError String) (respStop : Except SdkError Unit) :
    (s.is_started = false →
      run_code s language code respRun = ⟨s, [], .error .notStarted⟩) ∧
    (s.is_started = true →
      start_sandbox s respStart = ⟨s, [], false, .ok ()⟩) ∧
    (s.is_started = false →
      stop_sandbox s respStop = ⟨s, [], .ok ()⟩) := by
  refine ⟨fun h => ?_, fun h => ?_, fun h => ?_⟩ <;>
    simp [run_code, start_sandbox, stop_sandbox, h]

/-- C10 witness: concrete bases exercising all three guards. -/
theorem c10_lifecycle_guards_witness :
    (sampleBase.is_started = false ∧
      run_code sampleBase "python" "print(1)" (.ok [])
        = ⟨sampleBase, [], .error .notStarted⟩) ∧
    (({ sampleBase with is_started := true } : SandboxBase).is_started = true ∧
      start_sandbox { sampleBase with is_started := true } (.ok "ok")
        = ⟨{ sampleBase with is_started := true }, [], false, .ok ()⟩) ∧
    (sampleBase.is_started = false ∧
      stop_sandbox sampleBase (.ok ()) = ⟨sampleBase, [], .ok ()⟩) :=
  ⟨⟨rfl, (c10_lifecycle_guards sampleBase "python" "print(1)" (.ok [])
      (.ok "ok") (.ok ())).1 rfl⟩,
   ⟨rfl, (c10_lifecycle_guards { sampleBase with is_started := true } "python"
      "print(1)" (.ok []) (.ok "ok") (.ok ())).2.1 rfl⟩,
   ⟨rfl, (c10_lifecycle_guards sampleBase "python" "print(1)" (.ok [])
      (.ok "ok") (.ok ())).2.2 rfl⟩⟩

/-- C4 counterexample: with the same log directory, the distinct pairs
("a", "b/c") and ("a/b", "c") — the sandbox name resp. config file containing a
path separator — produce the same log path `logs/a/b/c.log`. -/
theorem c4_counterexample :
    ({ sampleMonitor with
        config_file := "a", sandbox_name := "b/c", log_dir := "logs" } :
      MicroVmMonitor).log_dir =
    ({ sampleMonitor with
        config_file := "a/b", sandbox_name := "c", log_dir := "logs" } :
      MicroVmMonitor).log_dir ∧
    (("a", "b/c") : String × String) ≠ ("a/b", "c") ∧
    generate_log_path { sampleMonitor with
        config_file := "a", sandbox_name := "b/c", log_dir := "logs" }
      = generate_log_path { sampleMonitor with
        config_file := "a/b", sandbox_name := "c", log_dir := "logs" } := by
  decide

/-- Splitting a list at a separator that occurs in neither prefix is unique. -/
theorem splitAtSep {a c : List Char} (ha : '/' ∉ a) (hc : '/' ∉ c) :
    ∀ {b d : List Char}, a ++ '/' :: b = c ++ '/' :: d → a = c ∧ b = d := by
  induction a generalizing c with
  | nil =>
      intro b d h
      cases c with
      | nil => simp_all
      | cons y c2 =>
          simp only [List.nil_append, List.cons_append, List.cons.injEq] at h
          obtain ⟨h1, _⟩ := h
          exact absurd (by rw [h1]; exact List.mem_cons_self y c2) hc
  | cons x a2 ih =>
      intro b d h
      cases c with
      | nil =>
          simp only [List.nil_append, List.cons_append, List.cons.injEq] at h
          obtain ⟨h1, _⟩ := h
          exact absurd (by rw [← h1]; exact List.mem_cons_self x a2) ha
      | cons y c2 =>
          simp only [List.cons_append, List.cons.injEq] at h
          obtain ⟨rfl, h2⟩ := h
          have ha2 : '/' ∉ a2 := fun hm => ha (List.mem_cons_of_mem _ hm)
          have hc2 : '/' ∉ c2 := fun hm => hc (List.mem_cons_of_mem _ hm)
          obtain ⟨he, hbd⟩ := ih ha2 hc2 h2
          exact ⟨by rw [he], hbd⟩

/-- A separator-free string is not an absolute path. -/
theorem pathIsAbsolute_eq_false_of_not_sep {s : String} (h : '/' ∉ s.data) :
    pathIsAbsolute s = false := by
  simp only [pathIsAbsolute, decide_eq_false_iff_not]
  cases hd : s.data with
  | nil => simp
  | cons a t =>
      simp only [List.head?_cons, Option.some.injEq]
      intro hEq
      subst hEq
      exact h (hd ▸ List.mem_cons_self _ _)

/-- A separator-free list does not end with the separator. -/
theorem getLast?_ne_sep {l : List Char} (h : '/' ∉ l) : l.getLast? ≠ some '/' := by
  intro hg
  exact h (List.mem_of_mem_getLast? (by simp [hg]))

/-- The characters of a non-absolute join: a prefix depending only on the base,
then the pushed component. -/
theorem pathJoin_data {base p : String} (hp : pathIsAbsolute p = false) :
    (pathJoin base p).data =
      (if base.data = [] then [] else
        if pathEndsWithSep base then base.data else base.data ++ ['/']) ++ p.data := by
  simp only [pathJoin, hp, Bool.false_eq_true, if_false]
  by_cases hb : base.data = []
  · simp [hb]
  · by_cases hs : pathEndsWithSep base = true
    · simp [hb, hs, String.data_append]
    · simp [hb, hs, String.data_append]

/-- The characters of a generated log path, for a separator-free nonempty
config file and a separator-free sandbox name: a prefix that depends only on
the log directory, then `config_file / sandbox_name . LOG_SUFFIX`. -/
theorem generate_log_path_data (m : MicroVmMonitor)
    (hcf : '/' ∉ m.config_file.data) (hcfne : m.config_file.data ≠ [])
    (hn : '/' ∉ m.sandbox_name.data) :
    (generate_log_path m).data =
      (if m.log_dir.data = [] then [] else
        if pathEndsWithSep m.log_dir then m.log_dir.data
        else m.log_dir.data ++ ['/']) ++
      (m.config_file.data ++ '/' ::
        (m.sandbox_name.data ++ '.' :: LOG_SUFFIX.data)) := by
  have hp2data : (m.sandbox_name ++ "." ++ LOG_SUFFIX).data
      = m.sandbox_name.data ++ '.' :: LOG_SUFFIX.data := by
    simp [String.data_append, List.append_assoc]
  have habs2 : pathIsAbsolute (m.sandbox_name ++ "." ++ LOG_SUFFIX) = false := by
    apply pathIsAbsolute_eq_false_of_not_sep
    rw [hp2data]
    simp only [List.mem_append, List.mem_cons]
    rintro (h | h | h)
    · exact hn h
    · exact absurd h (by decide)
    · exact absurd h (by decide)
  have h1 := @pathJoin_data m.log_dir m.config_file
    (pathIsAbsolute_eq_false_of_not_sep hcf)
  have hA_ne : (pathJoin m.log_dir m.config_file).data ≠ [] := by
    rw [h1]
    intro hcontra
    exact hcfne (List.append_eq_nil.mp hcontra).2
  have hA_sep : pathEndsWithSep (pathJoin m.log_dir m.config_file) = false := by
    simp only [pathEndsWithSep, decide_eq_false_iff_not]
    rw [h1, List.getLast?_append_of_ne_nil _ hcfne]
    exact getLast?_ne_sep hcf
  simp only [generate_log_path]
  rw [pathJoin_data habs2, if_neg hA_ne, hA_sep,
    if_neg (show ¬(false = true) by decide), h1, hp2data]
  simp [List.append_assoc]

/-- C4 (amended): two monitors with the same `log_dir` and distinct
(config_file, sandbox_name) pairs compute distinct log paths, provided the
config files are nonempty and neither the config files nor the sandbox names
contain the path separator; pairs containing separators (or absolute
components) can collide, as the counterexample shows — dots remain harmless. -/
theorem c4_distinct_pairs_distinct_paths (m m' : MicroVmMonitor)
    (hld : m.log_dir = m'.log_dir)
    (hcf : '/' ∉ m.config_file.data) (hcf' : '/' ∉ m'.config_file.data)
    (hcfne : m.config_file ≠ "") (hcfne' : m'.config_file ≠ "")
    (hn : '/' ∉ m.sandbox_name.data) (hn' : '/' ∉ m'.sandbox_name.data)
    (hne : (m.config_file, m.sandbox_name) ≠ (m'.config_file, m'.sandbox_name)) :
    generate_log_path m ≠ generate_log_path m' := by
  intro heq
  apply hne
  have hcfd : m.config_file.data ≠ [] :=
    fun hd => hcfne (String.ext (hd.trans rfl))
  have hcfd' : m'.config_file.data ≠ [] :=
    fun hd => hcfne' (String.ext (hd.trans rfl))
  have e1 := generate_log_path_data m hcf hcfd hn
  have e2 := generate_log_path_data m' hcf' hcfd' hn'
  have hdata : (generate_log_path m).data = (generate_log_path m').data := by
    rw [heq]
  rw [e1, e2, hld] at hdata
  have hmid := List.append_cancel_left hdata
  obtain ⟨hcfeq, htail⟩ := splitAtSep hcf hcf' hmid
  have hnameeq : m.sandbox_name.data = m'.sandbox_name.data :=
    List.append_cancel_right htail
  rw [String.ext hcfeq, String.ext hnameeq]

/-- C4 witness: with separator-free components, pairs differing in the sandbox
name give different paths. -/
theorem c4_distinct_pairs_distinct_paths_witness :
    generate_log_path { sampleMonitor with config_file := "a", sandbox_name := "b" }
      ≠ generate_log_path { sampleMonitor with config_file := "a", sandbox_name := "c" } :=
  c4_distinct_pairs_distinct_paths _ _ rfl (by decide) (by decide) (by decide)
    (by decide) (by decide) (by decide) (by decide)
